import Mathlib

/-!
Verification of the XBee C driver library (felixgalindo/xbee_c_library).

Shallow embedding of the API-frame codec, the AT-command correlator and the
cellular socket operations.  Bytes are modelled as natural numbers; every
place where the C code performs 8-bit arithmetic carries an explicit
`% 256`.  The UART input is a list of bytes; a read of `n` bytes succeeds
exactly when `n` bytes are available (the C port reads with a bounded
timeout and the driver fails on a short read).  Timeouts are abstracted:
the receive loops report a timeout exactly when the input stream is
exhausted, which models a run in which all queued bytes arrive within the
caller's timeout budget and nothing more arrives afterwards.

Sources embedded:
  src/src/xbee_api_frames.c   (frame codec, correlator, frame router)
  src/src/xbee_cellular.c     (cellular variant, socket operations)
  src/src/xbee.c              (XBeeInit)
-/

/-- Modelled from the spec: xbee_api_frames.h is absent from src/; the spec
fixes the maximum frame-data size at 256 (section 4.C: the source uses 256). -/
def XBEE_MAX_FRAME_DATA_SIZE : Nat := 256

/-- Modelled from the spec: frame-type registry, section 6 (0x08 AT Command). -/
def XBEE_API_TYPE_AT_COMMAND : Nat := 0x08

/-- Modelled from the spec: frame-type registry (0x88 AT Response). -/
def XBEE_API_TYPE_AT_RESPONSE : Nat := 0x88

/-- Modelled from the spec: frame-type registry (0x8A Modem Status). -/
def XBEE_API_TYPE_MODEM_STATUS : Nat := 0x8A

/-- Modelled from the spec: frame-type registry (0x8B TX Status). -/
def XBEE_API_TYPE_TX_STATUS : Nat := 0x8B

/-- Modelled from the spec: frame-type registry (0xA0 LR RX). -/
def XBEE_API_TYPE_LR_RX_PACKET : Nat := 0xA0

/-- Modelled from the spec: frame-type registry (0xA1 LR Explicit RX). -/
def XBEE_API_TYPE_LR_EXPLICIT_RX_PACKET : Nat := 0xA1

/-- Modelled from the spec: frame-type registry (0x20 Cellular IPv4 TX). -/
def XBEE_API_TYPE_CELLULAR_TX_IPV4 : Nat := 0x20

/-- Modelled from the spec: frame-type registry (0x40 Socket Create). -/
def XBEE_API_TYPE_CELLULAR_SOCKET_CREATE : Nat := 0x40

/-- Modelled from the spec: frame-type registry (0xC0 Socket Create Response). -/
def XBEE_API_TYPE_CELLULAR_SOCKET_CREATE_RESPONSE : Nat := 0xC0

/-- Modelled from the spec: frame-type registry (0x42 Socket Connect). -/
def XBEE_API_TYPE_CELLULAR_SOCKET_CONNECT : Nat := 0x42

/-- Modelled from the spec: frame-type registry (0xC2 Socket Connect Response). -/
def XBEE_API_TYPE_CELLULAR_SOCKET_CONNECT_RESPONSE : Nat := 0xC2

/-- Modelled from the spec: frame-type registry (0x43 Socket Close). -/
def XBEE_API_TYPE_CELLULAR_SOCKET_CLOSE : Nat := 0x43

/-- Modelled from the spec: frame-type registry (0x44 Socket Send). -/
def XBEE_API_TYPE_CELLULAR_SOCKET_SEND : Nat := 0x44

/-- Modelled from the spec: frame-type registry (0x45 Socket SendTo). -/
def XBEE_API_TYPE_CELLULAR_SOCKET_SEND_TO : Nat := 0x45

/-- Modelled from the spec: frame-type registry (0x46 Socket Bind). -/
def XBEE_API_TYPE_CELLULAR_SOCKET_BIND : Nat := 0x46

/-- Modelled from the spec: frame-type registry (0xC6 Socket Bind Response). -/
def XBEE_API_TYPE_CELLULAR_SOCKET_BIND_RESPONSE : Nat := 0xC6

/-- Modelled from the spec: frame-type registry (0xCD Cellular Socket RX). -/
def XBEE_API_TYPE_CELLULAR_SOCKET_RX : Nat := 0xCD

/-- Modelled from the spec: frame-type registry (0xCE Cellular Socket RX-From). -/
def XBEE_API_TYPE_CELLULAR_SOCKET_RX_FROM : Nat := 0xCE

/-- Modelled from the spec: frame-type registry (0xCF Socket Status). -/
def XBEE_API_TYPE_CELLULAR_SOCKET_STATUS : Nat := 0xCF

/-- Result of the send-side functions.  The C macros (API_SEND_SUCCESS = 0 and
the distinct nonzero error codes of the missing xbee_api_frames.h) are
represented by constructors; only their identities matter. -/
inductive SendResult where
  | success
  | uartFailure
  | frameTooLarge
  | atCmdError
  | atCmdResponseTimeout
deriving DecidableEq

/-- The xbee_api_frame_t structure populated by api_receive_api_frame:
type = data[0], length = declared payload byte count, data = the length
received bytes (the C buffer beyond them is zero from the initial memset),
checksum = trailing checksum byte. -/
structure ApiFrame where
  type : Nat
  length : Nat
  data : List Nat
  checksum : Nat
deriving DecidableEq

/-- Reads the zero-initialised frame->data buffer at index i: positions past
the received bytes read 0 (api_receive_api_frame memsets the frame first). -/
def ApiFrame.dataAt (f : ApiFrame) (i : Nat) : Nat := f.data.getD i 0

/-- Result of api_receive_api_frame: 0 on success, the negative codes the
source returns on each failed step (-2 start-byte timeout, -3 bad delimiter,
-4 length timeout, -5 oversized length, -6 data timeout, -7 checksum timeout,
-8 bad checksum). -/
inductive RecvOut where
  | fail (code : Int)
  | ok (f : ApiFrame)
deriving DecidableEq

/-- One PortUartRead of n bytes from the pending stream.  The port returns
within its timeout; the driver treats any short read as a failure, after
which the short bytes are consumed.  Here a short read yields none. -/
def readBytes (n : Nat) (s : List Nat) : Option (List Nat × List Nat) :=
  if s.length < n then none else some (s.take n, s.drop n)

/-- Embedding of api_receive_api_frame (src/src/xbee_api_frames.c lines
197-292) as a function of the pending UART byte stream.  Returns the
result and the bytes left unconsumed; on a short read everything pending
is consumed by the failed UART read. -/
def api_receive_api_frame (s : List Nat) : RecvOut × List Nat :=
  match readBytes 1 s with
  | none => (.fail (-2), [])
  | some (sd, r1) =>
    if sd.headD 0 ≠ 0x7E then (.fail (-3), r1)
    else match readBytes 2 r1 with
      | none => (.fail (-4), [])
      | some (lb, r2) =>
        let length := lb.headD 0 * 256 + lb.getD 1 0
        if length > XBEE_MAX_FRAME_DATA_SIZE then (.fail (-5), r2)
        else match readBytes length r2 with
          | none => (.fail (-6), [])
          | some (dta, r3) =>
            match readBytes 1 r3 with
            | none => (.fail (-7), [])
            | some (cb, r4) =>
              let cs := cb.headD 0
              if (cs + dta.sum) % 256 ≠ 0xFF then (.fail (-8), r4)
              else (.ok ⟨dta.headD 0, length, dta, cs⟩, r4)

/-- Embedding of calculate_checksum (lines 56-62): 8-bit sum of the frame
bytes from index 3 on, subtracted from 0xFF. -/
def calculate_checksum (frame : List Nat) : Nat :=
  0xFF - (frame.drop 3).sum % 256

/-- The byte sequence api_send_frame (lines 81-120) writes to the UART for a
given frame type and data: delimiter, big-endian length of data+type, type,
data, checksum.  Each stored byte is an 8-bit store. -/
def api_frame_bytes (frame_type : Nat) (data : List Nat) : List Nat :=
  let head := [0x7E, (data.length + 1) / 256 % 256, (data.length + 1) % 256, frame_type] ++ data
  head ++ [calculate_checksum head]

/-- The frame produced by decoding an encoded (type, payload) pair. -/
def decFrame (t : Nat) (p : List Nat) : ApiFrame :=
  ⟨t, p.length + 1, t :: p, 0xFF - (t + p.sum) % 256⟩

/-- Byte-level well-formedness of a (type, payload) pair handed to
api_send_frame: the type and every payload byte fit in 8 bits (they are
uint8_t in C) and the payload leaves room for the type byte within the
receiver's 256-byte data buffer. -/
def goodFrame (t : Nat) (p : List Nat) : Prop :=
  t < 256 ∧ p.length ≤ 255 ∧ ∀ b ∈ p, b < 256

instance (t : Nat) (p : List Nat) : Decidable (goodFrame t p) := by
  unfold goodFrame; infer_instance

theorem readBytes_full (l r : List Nat) :
    readBytes l.length (l ++ r) = some (l, r) := by
  simp [readBytes, List.take_left, List.drop_left]

theorem readBytes_cons (a : Nat) (s : List Nat) :
    readBytes 1 (a :: s) = some ([a], s) := by
  simpa using readBytes_full [a] s

theorem checksum_completes (S : Nat) : (0xFF - S % 256 + S) % 256 = 0xFF := by
  omega

/-- Round-trip: decoding an encoded frame (with anything after it still
pending) succeeds and consumes exactly the encoded bytes. -/
theorem receive_frame_bytes (t : Nat) (p : List Nat) (rest : List Nat)
    (hg : goodFrame t p) :
    api_receive_api_frame (api_frame_bytes t p ++ rest) = (.ok (decFrame t p), rest) := by
  obtain ⟨ht, hlen, hbytes⟩ := hg
  have hsum : (t :: p).sum = t + p.sum := by simp
  have henc : api_frame_bytes t p ++ rest =
      0x7E :: ((p.length + 1) / 256 % 256) :: ((p.length + 1) % 256) ::
        ((t :: p) ++ (0xFF - (t + p.sum) % 256) :: rest) := by
    simp [api_frame_bytes, calculate_checksum, hsum]
  rw [henc]
  unfold api_receive_api_frame
  rw [readBytes_cons]
  simp only [List.headD_cons]
  rw [if_neg (by omega)]
  have h2 : readBytes 2 (((p.length + 1) / 256 % 256) :: ((p.length + 1) % 256) ::
      ((t :: p) ++ (0xFF - (t + p.sum) % 256) :: rest)) =
      some ([(p.length + 1) / 256 % 256, (p.length + 1) % 256],
        (t :: p) ++ (0xFF - (t + p.sum) % 256) :: rest) := by
    simpa using readBytes_full [(p.length + 1) / 256 % 256, (p.length + 1) % 256]
      ((t :: p) ++ (0xFF - (t + p.sum) % 256) :: rest)
  rw [h2]
  have hlenval : ((p.length + 1) / 256 % 256) * 256 + (p.length + 1) % 256 = p.length + 1 := by
    omega
  simp only [List.headD_cons, List.getD_cons_succ, List.getD_cons_zero]
  rw [hlenval]
  rw [if_neg (by simp [XBEE_MAX_FRAME_DATA_SIZE]; omega)]
  have h3 : readBytes (p.length + 1) ((t :: p) ++ (0xFF - (t + p.sum) % 256) :: rest) =
      some (t :: p, (0xFF - (t + p.sum) % 256) :: rest) := by
    simpa using readBytes_full (t :: p) ((0xFF - (t + p.sum) % 256) :: rest)
  rw [h3]
  dsimp only
  rw [readBytes_cons]
  simp only [List.headD_cons]
  rw [hsum, if_neg (by simpa using checksum_completes (t + p.sum))]
  rfl

/-- C1: Framing round-trip.  For every frame type byte t and payload p with
len(p) < MAX-1, decoding the exact byte sequence produced by
api_send_frame's encoder succeeds and yields a frame whose type is t, whose
length is len(p)+1, and whose data after the type byte is p. -/
theorem c1_framing_roundtrip (t : Nat) (p : List Nat)
    (ht : t < 256) (hp : ∀ b ∈ p, b < 256)
    (hlen : p.length < XBEE_MAX_FRAME_DATA_SIZE - 1) :
    ∃ f, api_receive_api_frame (api_frame_bytes t p) = (.ok f, []) ∧
      f.type = t ∧ f.length = p.length + 1 ∧ f.data = t :: p := by
  refine ⟨decFrame t p, ?_, rfl, rfl, rfl⟩
  have := receive_frame_bytes t p [] ⟨ht, by
    simp [XBEE_MAX_FRAME_DATA_SIZE] at hlen; omega, hp⟩
  simpa using this

/-- Witness for C1 at the type byte 0x88 and payload [1, 86, 82]. -/
theorem c1_framing_roundtrip_witness :
    0x88 < 256 ∧ (∀ b ∈ [1, 86, 82], b < 256) ∧
      ([1, 86, 82] : List Nat).length < XBEE_MAX_FRAME_DATA_SIZE - 1 ∧
      ∃ f, api_receive_api_frame (api_frame_bytes 0x88 [1, 86, 82]) = (.ok f, []) ∧
        f.type = 0x88 ∧ f.length = 4 ∧ f.data = 0x88 :: [1, 86, 82] :=
  ⟨by decide, by decide, by decide,
    c1_framing_roundtrip 0x88 [1, 86, 82] (by decide) (by decide) (by decide)⟩

/-- Repeated calls to api_receive_api_frame: the list of the first n results
together with the stream left after them. -/
def receiveCalls : Nat → List Nat → List RecvOut × List Nat
  | 0, s => ([], s)
  | n + 1, s =>
    let r := api_receive_api_frame s
    let rs := receiveCalls n r.2
    (r.1 :: rs.1, rs.2)

theorem receive_garbage_byte (g : Nat) (s : List Nat) (hg : g ≠ 0x7E) :
    api_receive_api_frame (g :: s) = (.fail (-3), s) := by
  unfold api_receive_api_frame
  rw [readBytes_cons]
  simp [hg]

/-- C7: Resynchronization.  A stream of k garbage bytes (each a byte other
than 0x7E) followed by an encoded frame produces k InvalidStartDelimiter
results, one per call and one garbage byte each, after which the next call
decodes the frame. -/
theorem c7_resync (gs : List Nat) (t : Nat) (p : List Nat)
    (hgs : ∀ g ∈ gs, g < 256 ∧ g ≠ 0x7E)
    (ht : t < 256) (hp : ∀ b ∈ p, b < 256) (hlen : p.length ≤ 255) :
    receiveCalls (gs.length + 1) (gs ++ api_frame_bytes t p) =
      (List.replicate gs.length (.fail (-3)) ++ [.ok (decFrame t p)], []) := by
  induction gs with
  | nil =>
    have h := receive_frame_bytes t p [] ⟨ht, hlen, hp⟩
    rw [List.append_nil] at h
    simp [receiveCalls, h]
  | cons g gs ih =>
    have hgne : g ≠ 0x7E := (hgs g (by simp)).2
    have hstep := receive_garbage_byte g (gs ++ api_frame_bytes t p) hgne
    have hrec := ih (fun x hx => hgs x (by simp [hx]))
    simp only [List.length_cons, List.cons_append]
    show receiveCalls (gs.length + 1 + 1) (g :: (gs ++ api_frame_bytes t p)) = _
    rw [receiveCalls, hstep]
    simp only
    rw [hrec]
    simp [List.replicate_succ]

/-- Witness for C7 with two garbage bytes 0x00, 0x42 before an encoded frame. -/
theorem c7_resync_witness :
    (∀ g ∈ [0x00, 0x42], g < 256 ∧ g ≠ 0x7E) ∧ 0x8A < 256 ∧
      (∀ b ∈ [0, 6], b < 256) ∧ ([0, 6] : List Nat).length ≤ 255 ∧
      receiveCalls 3 ([0x00, 0x42] ++ api_frame_bytes 0x8A [0, 6]) =
        ([.fail (-3), .fail (-3), .ok (decFrame 0x8A [0, 6])], []) :=
  ⟨by decide, by decide, by decide, by decide, by
    have := c7_resync [0x00, 0x42] 0x8A [0, 6] (by decide) (by decide) (by decide) (by decide)
    simpa using this⟩

/-- Device state relevant to the embedded operations: the 8-bit frame-ID
counter (struct XBee, xbee.h line 120), the bytes written to the UART, and
the trace of (frame_type, data) pairs handed to api_send_frame. -/
structure XBeeState where
  frameIdCntr : Nat
  uart : List Nat
  sent : List (Nat × List Nat)
deriving DecidableEq

/-- XBeeInit (src/src/xbee.c lines 53-56) sets frameIdCntr = 1 on a fresh
device; no frames have been sent yet. -/
def initState : XBeeState := ⟨1, [], []⟩

/-- The counter update of api_send_frame lines 84-85: an 8-bit increment,
then reset to 1 when it wrapped to 0. -/
def nextFrameId (c : Nat) : Nat :=
  if (c + 1) % 256 = 0 then 1 else (c + 1) % 256

/-- Embedding of api_send_frame (src/src/xbee_api_frames.c lines 81-120):
bumps the frame-ID counter, then writes the encoded frame to the UART.  The
port write is modelled as succeeding, so the result is API_SEND_SUCCESS. -/
def api_send_frame (st : XBeeState) (frame_type : Nat) (data : List Nat) :
    SendResult × XBeeState :=
  (.success,
    { frameIdCntr := nextFrameId st.frameIdCntr,
      uart := st.uart ++ api_frame_bytes frame_type data,
      sent := st.sent ++ [(frame_type, data)] })

/-- Modelled from the spec: the AT-command catalog (xbee_at_cmds.h/.c is
absent from src/).  Section 4.B: each defined identifier maps to a two-ASCII
character code and a distinguished invalid identifier yields the NULL
sentinel, which the codec refuses to send.  Only the identifiers the
embedded code paths use are listed, plus the invalid one. -/
inductive at_command_t where
  | AT_VR
  | AT_AI
  | AT_WR
  | AT_AC
  | AT_AO
  | AT_SD
  | AT_INVALID
deriving DecidableEq

/-- Modelled from the spec: at_command_to_string returns the two ASCII codes
of the command, or none for the NULL sentinel of the invalid identifier. -/
def at_command_to_string : at_command_t → Option (Nat × Nat)
  | .AT_VR => some (86, 82)
  | .AT_AI => some (65, 73)
  | .AT_WR => some (87, 82)
  | .AT_AC => some (65, 67)
  | .AT_AO => some (65, 79)
  | .AT_SD => some (83, 68)
  | .AT_INVALID => none

/-- Embedding of api_send_at_command (src/src/xbee_api_frames.c lines
140-181).  The oversized-parameter check comes first; then the frame is
built as [frameIdCntr, cmd0, cmd1, parameter...].  The source dereferences
cmd_str[0] and cmd_str[1] at lines 154-155 BEFORE the NULL check at line
157, so when at_command_to_string yields the NULL sentinel the behaviour is
undefined (a NULL dereference): that path is none, and the
API_SEND_ERROR_INVALID_COMMAND return below it is unreachable. -/
def api_send_at_command (st : XBeeState) (command : at_command_t)
    (parameter : List Nat) (param_length : Nat) : Option (SendResult × XBeeState) :=
  if param_length > 128 then some (.frameTooLarge, st)
  else
    match at_command_to_string command with
    | none => none
    | some (c0, c1) =>
      let frame_data := st.frameIdCntr :: c0 :: c1 :: parameter.take param_length
      some (api_send_frame st XBEE_API_TYPE_AT_COMMAND frame_data)

/-- Cellular packet structure XBeeCellularPacket_t (xbee_cellular.h), with
the fields XBeeCellularSendPacket reads. -/
structure XBeeCellularPacket where
  protocol : Nat
  port : Nat
  ip : List Nat
  payload : List Nat
  payloadSize : Nat
deriving DecidableEq

/-- Embedding of XBeeCellularSendPacket (src/src/xbee_cellular.c lines
138-153): builds [frameIdCntr, protocol, port msb, port lsb, ip0..3,
payload...] and hands it to api_send_frame with type 0x20.  The function
reads the counter without incrementing it itself.  Returns the 0x00/0xFF
status byte and the new state. -/
def XBeeCellularSendPacket (st : XBeeState) (packet : XBeeCellularPacket) :
    Nat × XBeeState :=
  let frameId := st.frameIdCntr
  let frame := frameId :: packet.protocol :: (packet.port / 256 % 256) ::
    (packet.port % 256) :: (packet.ip.take 4 ++ packet.payload.take packet.payloadSize)
  let (status, st') := api_send_frame st XBEE_API_TYPE_CELLULAR_TX_IPV4 frame
  (if status = .success then 0x00 else 0xFF, st')

/-- C8: XBeeCellularSendPacket sends exactly one frame, of type 0x20, whose
payload is the current frame-ID counter, the protocol, the big-endian port,
the four IP bytes and then the payload bytes. -/
theorem c8_cellular_send_packet (st : XBeeState) (packet : XBeeCellularPacket)
    (hip : packet.ip.length = 4) (hps : packet.payloadSize = packet.payload.length) :
    (XBeeCellularSendPacket st packet).1 = 0x00 ∧
      (XBeeCellularSendPacket st packet).2.sent = st.sent ++
        [(0x20, st.frameIdCntr :: packet.protocol :: (packet.port / 256 % 256) ::
          (packet.port % 256) :: (packet.ip ++ packet.payload))] := by
  constructor
  · rfl
  · simp [XBeeCellularSendPacket, api_send_frame, XBEE_API_TYPE_CELLULAR_TX_IPV4,
      List.take_of_length_le (le_of_eq hip), hps]

/-- Witness for C8 at the spec's concrete example: protocol 1, port 80,
ip 1.2.3.4, payload AA BB, counter 5; the sent payload is
05 01 00 50 01 02 03 04 AA BB. -/
theorem c8_cellular_send_packet_witness :
    (⟨1, 80, [1, 2, 3, 4], [0xAA, 0xBB], 2⟩ : XBeeCellularPacket).ip.length = 4 ∧
      (XBeeCellularSendPacket ⟨5, [], []⟩ ⟨1, 80, [1, 2, 3, 4], [0xAA, 0xBB], 2⟩).1 = 0x00 ∧
      (XBeeCellularSendPacket ⟨5, [], []⟩ ⟨1, 80, [1, 2, 3, 4], [0xAA, 0xBB], 2⟩).2.sent =
        [(0x20, [0x05, 0x01, 0x00, 0x50, 0x01, 0x02, 0x03, 0x04, 0xAA, 0xBB])] := by
  have h := c8_cellular_send_packet ⟨5, [], []⟩ ⟨1, 80, [1, 2, 3, 4], [0xAA, 0xBB], 2⟩
    (by decide) (by decide)
  exact ⟨by decide, h.1, by rw [h.2]; decide⟩

/-- Observable outcome of api_send_at_command_and_get_response's receive
loop: the returned status, the value stored through the response_length out
pointer (none = never written), the bytes copied into the caller's response
buffer (none = untouched), the frames handed to api_handle_frame in order,
and the unconsumed stream. -/
structure AtCmdOutcome where
  result : SendResult
  response_length : Option Nat
  response_buffer : Option (List Nat)
  routed : List ApiFrame
  rest : List Nat
deriving DecidableEq

/-- The bytes memcpy copies from &frame.data[5]: n bytes of the
zero-initialised frame buffer starting at index 5. -/
def atRespCopy (f : ApiFrame) (n : Nat) : List Nat :=
  (List.range n).map fun i => f.dataAt (5 + i)

/-- The receive loop of api_send_at_command_and_get_response (lines
365-401), by recursion on a fuel bound.  On a decoded AT response it stores
response_length = frame.length - 5 (a uint8 store, hence + 251 mod 256),
then either copies the data bytes (status byte frame.data[4] = 0, buffer
non-NULL, length nonzero) and returns success, or returns
API_SEND_AT_CMD_ERROR without touching the buffer.  Any other decoded frame
goes to api_handle_frame and the loop continues.  Receive errors continue
the loop; the timeout fires once the stream is exhausted (all queued bytes
arrive within the caller's budget and nothing more does). -/
def atResponseLoopAux : Nat → List Nat → AtCmdOutcome
  | 0, s => ⟨.atCmdResponseTimeout, none, none, [], s⟩
  | fuel + 1, s =>
    match api_receive_api_frame s with
    | (.ok f, rest) =>
      if f.type = XBEE_API_TYPE_AT_RESPONSE then
        let respLen := (f.length + 251) % 256
        if f.dataAt 4 = 0 then
          ⟨.success, some respLen,
            if respLen ≠ 0 then some (atRespCopy f respLen) else none, [], rest⟩
        else ⟨.atCmdError, some respLen, none, [], rest⟩
      else
        let o := atResponseLoopAux fuel rest
        ⟨o.result, o.response_length, o.response_buffer, f :: o.routed, o.rest⟩
    | (.fail _, rest) =>
      if s.isEmpty then ⟨.atCmdResponseTimeout, none, none, [], s⟩
      else atResponseLoopAux fuel rest

/-- Embedding of api_send_at_command_and_get_response (src/src/
xbee_api_frames.c lines 352-402) for a caller-supplied response buffer.
param_length is strlen(parameter).  Note line 356: the status returned by
api_send_at_command is DISCARDED, so the receive loop is entered even when
the send failed; when the send has undefined behaviour (invalid command)
the whole call does.  The fuel stream.length + 1 suffices because every
receive consumes at least one pending byte. -/
def api_send_at_command_and_get_response (st : XBeeState) (command : at_command_t)
    (parameter : List Nat) (stream : List Nat) : Option (AtCmdOutcome × XBeeState) :=
  match api_send_at_command st command parameter parameter.length with
  | none => none
  | some (_, st') => some (atResponseLoopAux (stream.length + 1) stream, st')

theorem receive_shrinks (s : List Nat) (hs : s ≠ []) :
    (api_receive_api_frame s).2.length < s.length := by
  have hlen : 0 < s.length := List.length_pos.mpr hs
  unfold api_receive_api_frame
  rcases h1 : readBytes 1 s with _ | ⟨sd, r1⟩
  · simpa using hlen
  · have hr1 : r1.length + 1 ≤ s.length := by
      simp only [readBytes] at h1
      split at h1
      · exact absurd h1 (by simp)
      · rename_i hge
        have := congrArg (fun x => x.map Prod.snd) h1
        simp at this
        subst this
        simp
        omega
    simp only
    split
    · simpa using by omega
    · rcases h2 : readBytes 2 r1 with _ | ⟨lb, r2⟩
      · simpa using hlen
      · have hr2 : r2.length ≤ r1.length := by
          simp only [readBytes] at h2
          split at h2
          · exact absurd h2 (by simp)
          · have := congrArg (fun x => x.map Prod.snd) h2
            simp at this
            subst this
            simp
        simp only
        split
        · simp; omega
        · rcases h3 : readBytes (lb.headD 0 * 256 + lb.getD 1 0) r2 with _ | ⟨dta, r3⟩
          · simpa using hlen
          · have hr3 : r3.length ≤ r2.length := by
              simp only [readBytes] at h3
              split at h3
              · exact absurd h3 (by simp)
              · have := congrArg (fun x => x.map Prod.snd) h3
                simp at this
                subst this
                simp
            simp only
            rcases h4 : readBytes 1 r3 with _ | ⟨cb, r4⟩
            · simpa using hlen
            · have hr4 : r4.length ≤ r3.length := by
                simp only [readBytes] at h4
                split at h4
                · exact absurd h4 (by simp)
                · have := congrArg (fun x => x.map Prod.snd) h4
                  simp at this
                  subst this
                  simp
              simp only
              split
              · simp; omega
              · simp; omega

theorem atResponseLoopAux_congr (f1 : Nat) :
    ∀ (s : List Nat) (f2 : Nat), s.length < f1 → s.length < f2 →
      atResponseLoopAux f1 s = atResponseLoopAux f2 s := by
  induction f1 with
  | zero => intro s f2 h1 _; omega
  | succ a ih =>
    intro s f2 h1 h2
    rcases f2 with _ | b
    · omega
    rcases hs : s with _ | ⟨x, xs⟩
    · simp [atResponseLoopAux, api_receive_api_frame, readBytes]
    rw [← hs]
    have hne : s ≠ [] := by simp [hs]
    have hshrink := receive_shrinks s hne
    show atResponseLoopAux (a + 1) s = atResponseLoopAux (b + 1) s
    rw [atResponseLoopAux, atResponseLoopAux]
    rcases hr : api_receive_api_frame s with ⟨r, rest⟩
    have hrest : rest.length < s.length := by
      have := hshrink; rw [hr] at this; simpa using this
    cases r with
    | ok f =>
      simp only
      split
      · rfl
      · rw [ih rest b (by omega) (by omega)]
    | fail e =>
      simp only
      split
      · rfl
      · exact ih rest b (by omega) (by omega)

theorem api_frame_bytes_length (t : Nat) (p : List Nat) :
    (api_frame_bytes t p).length = p.length + 5 := by
  simp [api_frame_bytes]

/-- The receive loop on a stream headed by an encoded non-AT-response frame:
the decoded frame is handed to api_handle_frame and the loop continues on
the remaining bytes. -/
theorem atLoop_routes_head (t : Nat) (p : List Nat) (rest : List Nat)
    (hg : goodFrame t p) (hne : t ≠ XBEE_API_TYPE_AT_RESPONSE) :
    atResponseLoopAux ((api_frame_bytes t p ++ rest).length + 1) (api_frame_bytes t p ++ rest) =
      (let o := atResponseLoopAux (rest.length + 1) rest
       ⟨o.result, o.response_length, o.response_buffer, decFrame t p :: o.routed, o.rest⟩) := by
  rw [atResponseLoopAux, receive_frame_bytes t p rest hg]
  simp only [decFrame]
  rw [if_neg (by simpa using hne)]
  have hlt : rest.length < (api_frame_bytes t p ++ rest).length := by
    rw [List.length_append, api_frame_bytes_length]
    omega
  rw [atResponseLoopAux_congr ((api_frame_bytes t p ++ rest).length) rest (rest.length + 1)
    hlt (by omega)]

/-- The receive loop on a stream headed by an encoded AT-response frame:
the loop returns at once with the branch selected by the status byte
data[4] (payload byte 3). -/
theorem atLoop_at_head (p : List Nat) (rest : List Nat)
    (hp : ∀ b ∈ p, b < 256) (hlen : p.length ≤ 255) :
    atResponseLoopAux ((api_frame_bytes 0x88 p ++ rest).length + 1)
        (api_frame_bytes 0x88 p ++ rest) =
      (let f := decFrame 0x88 p
       let respLen := (p.length + 252) % 256
       if f.dataAt 4 = 0 then
         ⟨.success, some respLen,
           if respLen ≠ 0 then some (atRespCopy f respLen) else none, [], rest⟩
       else ⟨.atCmdError, some respLen, none, [], rest⟩) := by
  rw [atResponseLoopAux, receive_frame_bytes 0x88 p rest ⟨by norm_num, hlen, hp⟩]
  simp only [XBEE_API_TYPE_AT_RESPONSE]
  rw [if_pos (by simp [decFrame])]
  have hrl : (decFrame 0x88 p).length + 251 = p.length + 252 := by
    simp [decFrame]
  rw [hrl]

/-- Lists of (type, payload) pairs encoded back to back on the wire. -/
def encodeFrames : List (Nat × List Nat) → List Nat
  | [] => []
  | g :: gs => api_frame_bytes g.1 g.2 ++ encodeFrames gs

/-- The receive loop on a stream of encoded non-AT frames followed by an
encoded AT response followed by anything: all the non-AT frames are routed
in arrival order, then the loop returns on the AT response leaving the tail
unread. -/
theorem atLoop_full (gs : List (Nat × List Nat)) (p : List Nat) (rest : List Nat)
    (hgs : ∀ g ∈ gs, goodFrame g.1 g.2 ∧ g.1 ≠ XBEE_API_TYPE_AT_RESPONSE)
    (hp : ∀ b ∈ p, b < 256) (hlen : p.length ≤ 255) :
    atResponseLoopAux ((encodeFrames gs ++ (api_frame_bytes 0x88 p ++ rest)).length + 1)
        (encodeFrames gs ++ (api_frame_bytes 0x88 p ++ rest)) =
      ⟨if (decFrame 0x88 p).dataAt 4 = 0 then .success else .atCmdError,
        some ((p.length + 252) % 256),
        if (decFrame 0x88 p).dataAt 4 = 0 ∧ (p.length + 252) % 256 ≠ 0 then
          some (atRespCopy (decFrame 0x88 p) ((p.length + 252) % 256)) else none,
        gs.map fun g => decFrame g.1 g.2, rest⟩ := by
  induction gs with
  | nil =>
    simp only [encodeFrames, List.nil_append, List.map_nil]
    rw [atLoop_at_head p rest hp hlen]
    by_cases h4 : (decFrame 0x88 p).dataAt 4 = 0
    · by_cases hz : (p.length + 252) % 256 ≠ 0 <;> simp [h4, hz]
    · simp [h4]
  | cons g gs ih =>
    have hg := hgs g (by simp)
    have hrest := ih (fun x hx => hgs x (by simp [hx]))
    simp only [encodeFrames, List.append_assoc, List.map_cons]
    rw [atLoop_routes_head g.1 g.2 (encodeFrames gs ++ (api_frame_bytes 0x88 p ++ rest))
      hg.1 hg.2]
    simp only
    rw [hrest]

/-- Shared correlator lemma: on a stream of encoded non-AT frames followed
by an encoded AT response followed by anything, the correlator routes the
non-AT frames in order, then returns on the AT response with the branch
picked by its status byte, leaving the tail unconsumed. -/
theorem correlator_first_at_response (st : XBeeState)
    (command : at_command_t) (parameter : List Nat)
    (gs : List (Nat × List Nat)) (fid : Nat) (pr : List Nat) (rest : List Nat)
    (hcmd : (at_command_to_string command).isSome)
    (hgs : ∀ g ∈ gs, goodFrame g.1 g.2 ∧ g.1 ≠ XBEE_API_TYPE_AT_RESPONSE)
    (hfid : fid < 256) (hpr : ∀ b ∈ pr, b < 256) (hlen : pr.length ≤ 254) :
    ∃ st' rl rb,
      api_send_at_command_and_get_response st command parameter
          (encodeFrames gs ++ (api_frame_bytes 0x88 (fid :: pr) ++ rest)) =
        some (⟨if pr.getD 2 0 = 0 then .success else .atCmdError,
          rl, rb, gs.map fun g => decFrame g.1 g.2, rest⟩, st') := by
  rcases hc : at_command_to_string command with _ | cc
  · rw [hc] at hcmd; simp at hcmd
  have hbytes : ∀ b ∈ fid :: pr, b < 256 := by
    intro b hb
    rcases List.mem_cons.mp hb with h | h
    · omega
    · exact hpr b h
  have hloop := atLoop_full gs (fid :: pr) rest hgs hbytes (by simp; omega)
  have hdat : (decFrame 0x88 (fid :: pr)).dataAt 4 = pr.getD 2 0 := by
    simp [decFrame, ApiFrame.dataAt]
  rw [hdat] at hloop
  unfold api_send_at_command_and_get_response api_send_at_command
  by_cases hpl : parameter.length > 128
  · rw [if_pos hpl]
    exact ⟨st, _, _, by rw [hloop]⟩
  · rw [if_neg hpl, hc]
    exact ⟨_, _, _, by rw [hloop]⟩

/-- C2: the correlator returns upon the first decoded frame of type 0x88
(AT Response) regardless of that frame's frame-ID byte, and every earlier
decoded frame of another type is handed to api_handle_frame in arrival
order.  The AT response payload is fid :: pr with fid the frame-ID field,
quantified freely, so the result does not depend on it; the status byte
frame.data[4] is pr.getD 2 0.  The bytes after the AT response are left
unconsumed. -/
theorem c2_correlator_returns_on_first_at_response (st : XBeeState)
    (command : at_command_t) (parameter : List Nat)
    (gs : List (Nat × List Nat)) (fid : Nat) (pr : List Nat) (rest : List Nat)
    (hcmd : (at_command_to_string command).isSome)
    (hgs : ∀ g ∈ gs, goodFrame g.1 g.2 ∧ g.1 ≠ XBEE_API_TYPE_AT_RESPONSE)
    (hfid : fid < 256) (hpr : ∀ b ∈ pr, b < 256) (hlen : pr.length ≤ 254) :
    ∃ st' rl rb,
      api_send_at_command_and_get_response st command parameter
          (encodeFrames gs ++ (api_frame_bytes 0x88 (fid :: pr) ++ rest)) =
        some (⟨if pr.getD 2 0 = 0 then .success else .atCmdError,
          rl, rb, gs.map fun g => decFrame g.1 g.2, rest⟩, st') :=
  correlator_first_at_response st command parameter gs fid pr rest hcmd hgs hfid hpr hlen

/-- Witness for C2: one modem-status frame then an AT response with status 0
and frame-ID 9; the modem frame is routed, the correlator returns success. -/
theorem c2_correlator_witness :
    (at_command_to_string .AT_VR).isSome = true ∧
      (∀ g ∈ [((0x8A : Nat), [0, 6])], goodFrame g.1 g.2 ∧ g.1 ≠ XBEE_API_TYPE_AT_RESPONSE) ∧
      (9 : Nat) < 256 ∧ (∀ b ∈ [86, 82, 0, 49], b < 256) ∧
      ([86, 82, 0, 49] : List Nat).length ≤ 254 ∧
      ∃ st' rl rb,
        api_send_at_command_and_get_response initState .AT_VR []
            (encodeFrames [((0x8A : Nat), [0, 6])] ++
              (api_frame_bytes 0x88 (9 :: [86, 82, 0, 49]) ++ [])) =
          some (⟨.success, rl, rb, [((0x8A : Nat), [0, 6])].map (fun g => decFrame g.1 g.2), []⟩, st') :=
  ⟨by decide, by decide, by decide, by decide, by decide, by
    have h := c2_correlator_returns_on_first_at_response initState .AT_VR []
      [((0x8A : Nat), [0, 6])] 9 [86, 82, 0, 49] [] (by decide) (by decide)
      (by decide) (by decide) (by decide)
    simpa using h⟩

/-- C10: when the decoded AT response has a nonzero status byte (data[4],
i.e. payload byte pr.getD 2 0 with payload fid :: pr), the correlator
returns API_SEND_AT_CMD_ERROR having already stored frame.length - 5
through the response_length out pointer, and the response buffer is left
untouched. -/
theorem c10_at_error_writes_length (st : XBeeState) (command : at_command_t)
    (parameter : List Nat) (fid : Nat) (pr : List Nat) (rest : List Nat)
    (hcmd : (at_command_to_string command).isSome)
    (hfid : fid < 256) (hpr : ∀ b ∈ pr, b < 256) (hlen : pr.length ≤ 254)
    (hstatus : pr.getD 2 0 ≠ 0) :
    ∃ st',
      api_send_at_command_and_get_response st command parameter
          (api_frame_bytes 0x88 (fid :: pr) ++ rest) =
        some (⟨.atCmdError, some ((decFrame 0x88 (fid :: pr)).length - 5),
          none, [], rest⟩, st') := by
  rcases hc : at_command_to_string command with _ | cc
  · rw [hc] at hcmd; simp at hcmd
  have hprlen : 3 ≤ pr.length := by
    by_contra hcon
    exact hstatus (List.getD_eq_default pr 0 (by omega))
  have hbytes : ∀ b ∈ fid :: pr, b < 256 := by
    intro b hb
    rcases List.mem_cons.mp hb with h | h
    · omega
    · exact hpr b h
  have hloop := atLoop_full [] (fid :: pr) rest (by simp) hbytes (by simp; omega)
  simp only [encodeFrames, List.nil_append, List.map_nil] at hloop
  have hdat : (decFrame 0x88 (fid :: pr)).dataAt 4 = pr.getD 2 0 := by
    simp [decFrame, ApiFrame.dataAt]
  rw [hdat] at hloop
  simp only [hstatus, if_false, false_and, if_neg] at hloop
  have hloop2 : atResponseLoopAux ((api_frame_bytes 0x88 (fid :: pr) ++ rest).length + 1)
      (api_frame_bytes 0x88 (fid :: pr) ++ rest) =
      ⟨.atCmdError, some ((decFrame 0x88 (fid :: pr)).length - 5), none, [], rest⟩ := by
    rw [hloop]
    have hrl : ((fid :: pr).length + 252) % 256 = (decFrame 0x88 (fid :: pr)).length - 5 := by
      simp only [decFrame, List.length_cons]
      omega
    rw [hrl]
  unfold api_send_at_command_and_get_response api_send_at_command
  by_cases hpl : parameter.length > 128
  · rw [if_pos hpl]
    exact ⟨st, by rw [hloop2]⟩
  · rw [if_neg hpl, hc]
    exact ⟨_, by rw [hloop2]⟩

/-- Witness for C10: AT response with status byte 2 and three data bytes;
the correlator reports AtCmdError with response_length 3 and no copy. -/
theorem c10_at_error_writes_length_witness :
    (at_command_to_string at_command_t.AT_VR).isSome = true ∧ (1 : Nat) < 256 ∧
      (∀ b ∈ [86, 82, 2, 7, 8, 9], b < 256) ∧
      ([86, 82, 2, 7, 8, 9] : List Nat).length ≤ 254 ∧
      ([86, 82, 2, 7, 8, 9] : List Nat).getD 2 0 ≠ 0 ∧
      ∃ st',
        api_send_at_command_and_get_response initState .AT_VR []
            (api_frame_bytes 0x88 (1 :: [86, 82, 2, 7, 8, 9]) ++ []) =
          some (⟨.atCmdError, some 3, none, [], []⟩, st') :=
  ⟨by decide, by decide, by decide, by decide, by decide, by
    have hw := c10_at_error_writes_length initState .AT_VR [] 1 [86, 82, 2, 7, 8, 9] []
      (by decide) (by decide) (by decide) (by decide) (by decide)
    simpa using hw⟩

/-- C4 evaluation: the correlator of src/src/xbee_api_frames.c has no
respBufCap parameter at all.  On an AT response with status 0 carrying 30
data bytes it returns success and copies all 30 bytes into the caller's
buffer whatever its capacity (the unit test
test_apiSendAtCommandAndGetResponse_buffer_overflow passes a capacity of 1
and expects API_SEND_ERROR_BUFFER_TOO_SMALL, which this code can never
produce). -/
theorem c4_no_buffer_capacity_check :
    api_send_at_command_and_get_response initState .AT_VR []
        (api_frame_bytes 0x88 ([1, 86, 82, 0] ++ List.replicate 30 65)) =
      some (⟨.success, some 30, some (List.replicate 30 65), [], []⟩,
        ⟨2, api_frame_bytes 8 [1, 86, 82], [(8, [1, 86, 82])]⟩) := by
  decide

/-- C5 evaluation: at_command_to_string yields the NULL sentinel for the
invalid identifier, and api_send_at_command dereferences it (lines 154-155)
before the NULL check (line 157), so on an invalid command neither
api_send_at_command nor api_send_at_command_and_get_response has a defined
result (none); in particular neither returns
API_SEND_ERROR_INVALID_COMMAND, and the correlator never checks the send
status (line 356) on any path. -/
theorem c5_invalid_command_undefined :
    api_send_at_command initState .AT_INVALID [] 0 = none ∧
      api_send_at_command_and_get_response initState .AT_INVALID []
        (api_frame_bytes 0x88 [1, 86, 82, 0]) = none := by
  constructor <;> rfl

/-- What api_handle_frame did with a frame: which handler ran, or that the
frame matched a case whose handler pointer was unset, or that it fell to
the default (unknown frame type) branch. -/
inductive HandledAs where
  | atResponse
  | modemStatus
  | txStatus
  | rxPacket
  | skipped
  | unknown
deriving DecidableEq

/-- Embedding of api_handle_frame (src/src/xbee_api_frames.c lines 308-331).
The switch has cases for AT response, modem status, TX status and the two
LR receive types 0xA0/0xA1 (routed to the vtable's handle_rx_packet_frame
when set); every other type, the cellular socket receive types included,
falls to the default branch which only logs the unknown type.  The two
booleans say whether the vtable's TX-status and RX-packet handler pointers
are set. -/
def api_handle_frame (hasTxStatusHandler hasRxPacketHandler : Bool)
    (frame : ApiFrame) : HandledAs :=
  if frame.type = XBEE_API_TYPE_AT_RESPONSE then .atResponse
  else if frame.type = XBEE_API_TYPE_MODEM_STATUS then .modemStatus
  else if frame.type = XBEE_API_TYPE_TX_STATUS then
    (if hasTxStatusHandler then .txStatus else .skipped)
  else if frame.type = XBEE_API_TYPE_LR_RX_PACKET ∨
      frame.type = XBEE_API_TYPE_LR_EXPLICIT_RX_PACKET then
    (if hasRxPacketHandler then .rxPacket else .skipped)
  else .unknown

/-- C6 evaluation: frames of type 0xCD (Cellular Socket RX) and 0xCE
(Cellular Socket RX-From) fall to api_handle_frame's default branch and are
treated as unknown frame types even when an RX packet handler is
registered; the registered handler (XBeeCellularHandleRxPacket, which
parses exactly these two types) is never invoked for them. -/
theorem c6_socket_rx_frames_treated_unknown :
    api_handle_frame true true
        ⟨XBEE_API_TYPE_CELLULAR_SOCKET_RX, 4, [0xCD, 1, 2, 0], 0x2B⟩ = .unknown ∧
      api_handle_frame true true
        ⟨XBEE_API_TYPE_CELLULAR_SOCKET_RX_FROM, 10,
          [0xCE, 1, 2, 0, 10, 0, 0, 1, 0, 80], 0x9B⟩ = .unknown ∧
      HandledAs.unknown ≠ HandledAs.rxPacket := by
  refine ⟨by decide, by decide, by decide⟩

/-- Outcome of a blocking cellular socket operation: the boolean result,
the socket ID stored through socketIdOut (create only), the device state,
the frames handed to api_handle_frame during the wait, and the unconsumed
stream. -/
structure SockOutcome where
  ok : Bool
  socketId : Option Nat
  st : XBeeState
  routed : List ApiFrame
  rest : List Nat
deriving DecidableEq

/-- The wait loop of XBeeCellularSocketCreate (src/src/xbee_cellular.c
lines 366-391): receive until a SOCKET_CREATE_RESPONSE (0xC0) frame
arrives, then succeed iff its frame ID matches and its status byte is 0;
a matching-type frame with the wrong frame ID or a nonzero status ends the
wait with failure.  Frames of any other type are NOT handed to
api_handle_frame; the loop simply tries the next receive.  The timeout
fires when the stream is exhausted. -/
def socketCreateLoopAux : Nat → Nat → List Nat → Bool × Option Nat × List Nat
  | 0, _, s => (false, none, s)
  | fuel + 1, frameId, s =>
    match api_receive_api_frame s with
    | (.ok f, rest) =>
      if f.type = XBEE_API_TYPE_CELLULAR_SOCKET_CREATE_RESPONSE then
        if f.dataAt 1 = frameId ∧ f.dataAt 3 = 0 then (true, some (f.dataAt 2), rest)
        else (false, none, rest)
      else socketCreateLoopAux fuel frameId rest
    | (.fail _, rest) =>
      if s.isEmpty then (false, none, s)
      else socketCreateLoopAux fuel frameId rest

/-- Embedding of XBeeCellularSocketCreate (lines 354-392): reads the
counter with a post-increment (an 8-bit increment with no skip of 0), sends
[frameId, protocol] as a SOCKET_CREATE frame via api_send_frame (which
increments the counter a second time), then waits for the response.  The
routed list is empty because the wait loop contains no api_handle_frame
call. -/
def XBeeCellularSocketCreate (st : XBeeState) (protocol : Nat) (stream : List Nat) :
    SockOutcome :=
  let frameId := st.frameIdCntr
  let st1 : XBeeState := { st with frameIdCntr := (st.frameIdCntr + 1) % 256 }
  let st2 := (api_send_frame st1 XBEE_API_TYPE_CELLULAR_SOCKET_CREATE [frameId, protocol]).2
  let res := socketCreateLoopAux (stream.length + 1) frameId stream
  ⟨res.1, res.2.1, st2, [], res.2.2⟩

/-- The first wait loop of XBeeCellularSocketConnect (lines 451-467):
receive until a SOCKET_CONNECT_RESPONSE (0xC2) frame arrives; succeed iff
data[1] = frameId, data[2] = socketId and data[3] = 0, else fail.  Other
frames are discarded, not routed. -/
def socketConnectRespLoopAux : Nat → Nat → Nat → List Nat → Bool × List Nat
  | 0, _, _, s => (false, s)
  | fuel + 1, frameId, socketId, s =>
    match api_receive_api_frame s with
    | (.ok f, rest) =>
      if f.type = XBEE_API_TYPE_CELLULAR_SOCKET_CONNECT_RESPONSE then
        if f.dataAt 1 = frameId ∧ f.dataAt 2 = socketId ∧ f.dataAt 3 = 0 then (true, rest)
        else (false, rest)
      else socketConnectRespLoopAux fuel frameId socketId rest
    | (.fail _, rest) =>
      if s.isEmpty then (false, s)
      else socketConnectRespLoopAux fuel frameId socketId rest

/-- The second wait loop of XBeeCellularSocketConnect (lines 474-488):
receive until a SOCKET_STATUS (0xCF) frame arrives; succeed iff
data[1] = socketId and data[2] = 0, else fail.  Other frames are
discarded, not routed. -/
def socketStatusLoopAux : Nat → Nat → List Nat → Bool × List Nat
  | 0, _, s => (false, s)
  | fuel + 1, socketId, s =>
    match api_receive_api_frame s with
    | (.ok f, rest) =>
      if f.type = XBEE_API_TYPE_CELLULAR_SOCKET_STATUS then
        if f.dataAt 1 = socketId ∧ f.dataAt 2 = 0 then (true, rest)
        else (false, rest)
      else socketStatusLoopAux fuel socketId rest
    | (.fail _, rest) =>
      if s.isEmpty then (false, s)
      else socketStatusLoopAux fuel socketId rest

/-- Embedding of XBeeCellularSocketConnect (lines 414-492) for the IPv4
address form (isString = false): builds [frameId, socketId, portHi,
portLo, 0x00, ip0..3] after a post-increment of the counter, sends it,
then waits for the connect response and, if that succeeds, for the socket
status.  Neither wait loop routes frames to api_handle_frame. -/
def XBeeCellularSocketConnect (st : XBeeState) (socketId : Nat) (ip : List Nat)
    (port : Nat) (stream : List Nat) : SockOutcome :=
  let frameId := st.frameIdCntr
  let st1 : XBeeState := { st with frameIdCntr := (st.frameIdCntr + 1) % 256 }
  let frame := frameId :: socketId :: (port / 256 % 256) :: (port % 256) :: 0 :: ip.take 4
  let st2 := (api_send_frame st1 XBEE_API_TYPE_CELLULAR_SOCKET_CONNECT frame).2
  let res1 := socketConnectRespLoopAux (stream.length + 1) frameId socketId stream
  if res1.1 then
    let res2 := socketStatusLoopAux (res1.2.length + 1) socketId res1.2
    ⟨res2.1, none, st2, [], res2.2⟩
  else ⟨false, none, st2, [], res1.2⟩

/-- The wait loop of XBeeCellularSocketBind (lines 641-657): receive until
a SOCKET_BIND_RESPONSE (0xC6) frame arrives; succeed iff data[1] = frameId,
data[2] = socketId and data[3] = 0, else fail.  Other frames are
discarded, not routed. -/
def socketBindLoopAux : Nat → Nat → Nat → List Nat → Bool × List Nat
  | 0, _, _, s => (false, s)
  | fuel + 1, frameId, socketId, s =>
    match api_receive_api_frame s with
    | (.ok f, rest) =>
      if f.type = XBEE_API_TYPE_CELLULAR_SOCKET_BIND_RESPONSE then
        if f.dataAt 1 = frameId ∧ f.dataAt 2 = socketId ∧ f.dataAt 3 = 0 then (true, rest)
        else (false, rest)
      else socketBindLoopAux fuel frameId socketId rest
    | (.fail _, rest) =>
      if s.isEmpty then (false, s)
      else socketBindLoopAux fuel frameId socketId rest

/-- Embedding of XBeeCellularSocketBind (lines 619-661): builds [frameId,
socketId, portHi, portLo] after a post-increment of the counter, sends it,
and when blocking waits for the bind response.  The wait loop routes no
frames. -/
def XBeeCellularSocketBind (st : XBeeState) (socketId : Nat) (port : Nat)
    (blocking : Bool) (stream : List Nat) : SockOutcome :=
  let frameId := st.frameIdCntr
  let st1 : XBeeState := { st with frameIdCntr := (st.frameIdCntr + 1) % 256 }
  let frame := [frameId, socketId, port / 256 % 256, port % 256]
  let st2 := (api_send_frame st1 XBEE_API_TYPE_CELLULAR_SOCKET_BIND frame).2
  if blocking then
    let res := socketBindLoopAux (stream.length + 1) frameId socketId stream
    ⟨res.1, none, st2, [], res.2⟩
  else ⟨true, none, st2, [], stream⟩

/-- The wait loop of XBeeCellularSocketClose (lines 581-597): receive until
a SOCKET_STATUS (0xCF) frame arrives; succeed iff data[1] = frameId,
data[2] = socketId and data[3] = 1 (closed), else fail.  Other frames are
discarded, not routed. -/
def socketCloseLoopAux : Nat → Nat → Nat → List Nat → Bool × List Nat
  | 0, _, _, s => (false, s)
  | fuel + 1, frameId, socketId, s =>
    match api_receive_api_frame s with
    | (.ok f, rest) =>
      if f.type = XBEE_API_TYPE_CELLULAR_SOCKET_STATUS then
        if f.dataAt 1 = frameId ∧ f.dataAt 2 = socketId ∧ f.dataAt 3 = 1 then (true, rest)
        else (false, rest)
      else socketCloseLoopAux fuel frameId socketId rest
    | (.fail _, rest) =>
      if s.isEmpty then (false, s)
      else socketCloseLoopAux fuel frameId socketId rest

/-- Embedding of XBeeCellularSocketClose (lines 564-601): sends [frameId,
socketId] after a post-increment of the counter and, when blocking, waits
for the closing socket-status frame.  The wait loop routes no frames. -/
def XBeeCellularSocketClose (st : XBeeState) (socketId : Nat) (blocking : Bool)
    (stream : List Nat) : SockOutcome :=
  let frameId := st.frameIdCntr
  let st1 : XBeeState := { st with frameIdCntr := (st.frameIdCntr + 1) % 256 }
  let st2 := (api_send_frame st1 XBEE_API_TYPE_CELLULAR_SOCKET_CLOSE [frameId, socketId]).2
  if blocking then
    let res := socketCloseLoopAux (stream.length + 1) frameId socketId stream
    ⟨res.1, none, st2, [], res.2⟩
  else ⟨true, none, st2, [], stream⟩

/-- Embedding of XBeeCellularSocketSend (lines 507-519): rejects an empty
or oversized payload before touching the counter, otherwise builds
[frameId, socketId, 0x00, payload...] with a post-increment of the counter
and sends it. -/
def XBeeCellularSocketSend (st : XBeeState) (socketId : Nat) (payload : List Nat)
    (payloadLen : Nat) : Bool × XBeeState :=
  if payloadLen = 0 ∨ payloadLen > 120 then (false, st)
  else
    let frameId := st.frameIdCntr
    let st1 : XBeeState := { st with frameIdCntr := (st.frameIdCntr + 1) % 256 }
    let frame := frameId :: socketId :: 0 :: payload.take payloadLen
    let res := api_send_frame st1 XBEE_API_TYPE_CELLULAR_SOCKET_SEND frame
    (res.1 = .success, res.2)

/-- Embedding of XBeeCellularSocketSendTo (lines 678-694): rejects an empty
or oversized payload before touching the counter, otherwise builds
[frameId, socketId, ip0..3, portHi, portLo, 0x00, payload...] with a
post-increment of the counter and sends it. -/
def XBeeCellularSocketSendTo (st : XBeeState) (socketId : Nat) (ip : List Nat)
    (port : Nat) (payload : List Nat) (payloadLen : Nat) : Bool × XBeeState :=
  if payloadLen = 0 ∨ payloadLen > 120 then (false, st)
  else
    let frameId := st.frameIdCntr
    let st1 : XBeeState := { st with frameIdCntr := (st.frameIdCntr + 1) % 256 }
    let frame := frameId :: socketId :: (ip.take 4 ++
      (port / 256 % 256) :: (port % 256) :: 0 :: payload.take payloadLen)
    let res := api_send_frame st1 XBEE_API_TYPE_CELLULAR_SOCKET_SEND_TO frame
    (res.1 = .success, res.2)

/-- C9 counterexample: during XBeeCellularSocketCreate's wait, a
successfully received modem-status frame (decodable at the head of the
stream, as the last conjunct shows) is discarded without being routed to
any handler, even though the create itself then succeeds on the following
response frame.  This contradicts the claim that every successfully
received frame during the blocking socket waits is routed. -/
theorem c9_socket_create_drops_frames :
    (XBeeCellularSocketCreate initState 1
        (api_frame_bytes 0x8A [0, 6] ++ api_frame_bytes 0xC0 [1, 5, 0])).ok = true ∧
      (XBeeCellularSocketCreate initState 1
        (api_frame_bytes 0x8A [0, 6] ++ api_frame_bytes 0xC0 [1, 5, 0])).socketId = some 5 ∧
      (XBeeCellularSocketCreate initState 1
        (api_frame_bytes 0x8A [0, 6] ++ api_frame_bytes 0xC0 [1, 5, 0])).routed = [] ∧
      (api_receive_api_frame
        (api_frame_bytes 0x8A [0, 6] ++ api_frame_bytes 0xC0 [1, 5, 0])).1 =
        .ok (decFrame 0x8A [0, 6]) := by
  refine ⟨by decide, by decide, by decide, by decide⟩

/-- C9 amended: only the AT correlator routes during its wait — every
successfully decoded non-AT frame it sees goes to api_handle_frame in
arrival order — while the blocking waits of socket create, connect, bind
and close route nothing: any received frame other than the awaited
response is discarded unrouted. -/
theorem c9_routing_only_in_correlator :
    (∀ (st : XBeeState) (command : at_command_t) (parameter : List Nat)
      (gs : List (Nat × List Nat)) (fid : Nat) (pr : List Nat) (rest : List Nat),
      (at_command_to_string command).isSome →
      (∀ g ∈ gs, goodFrame g.1 g.2 ∧ g.1 ≠ XBEE_API_TYPE_AT_RESPONSE) →
      fid < 256 → (∀ b ∈ pr, b < 256) → pr.length ≤ 254 →
      ∃ st' o, api_send_at_command_and_get_response st command parameter
          (encodeFrames gs ++ (api_frame_bytes 0x88 (fid :: pr) ++ rest)) =
          some (o, st') ∧ o.routed = gs.map fun g => decFrame g.1 g.2) ∧
    (∀ (st : XBeeState) (protocol : Nat) (stream : List Nat),
      (XBeeCellularSocketCreate st protocol stream).routed = []) ∧
    (∀ (st : XBeeState) (socketId : Nat) (ip : List Nat) (port : Nat) (stream : List Nat),
      (XBeeCellularSocketConnect st socketId ip port stream).routed = []) ∧
    (∀ (st : XBeeState) (socketId : Nat) (port : Nat) (blocking : Bool) (stream : List Nat),
      (XBeeCellularSocketBind st socketId port blocking stream).routed = []) ∧
    (∀ (st : XBeeState) (socketId : Nat) (blocking : Bool) (stream : List Nat),
      (XBeeCellularSocketClose st socketId blocking stream).routed = []) := by
  refine ⟨?_, ?_, ?_, ?_, ?_⟩
  · intro st command parameter gs fid pr rest hcmd hgs hfid hpr hlen
    obtain ⟨st', rl, rb, heq⟩ := correlator_first_at_response st command
      parameter gs fid pr rest hcmd hgs hfid hpr hlen
    exact ⟨st', _, heq, rfl⟩
  · intro st protocol stream
    rfl
  · intro st socketId ip port stream
    unfold XBeeCellularSocketConnect
    dsimp only
    split <;> rfl
  · intro st socketId port blocking stream
    unfold XBeeCellularSocketBind
    dsimp only
    split <;> rfl
  · intro st socketId blocking stream
    unfold XBeeCellularSocketClose
    dsimp only
    split <;> rfl

/-- Witness for C9 amended, instantiating the correlator part at one
modem-status frame before an AT response and the socket parts at concrete
arguments. -/
theorem c9_routing_only_in_correlator_witness :
    (∃ st' o, api_send_at_command_and_get_response initState .AT_AI []
        (encodeFrames [((0x8A : Nat), [0, 6])] ++ (api_frame_bytes 0x88 (3 :: [65, 73, 0, 0]) ++ [])) =
        some (o, st') ∧ o.routed = [((0x8A : Nat), [0, 6])].map fun g => decFrame g.1 g.2) ∧
    (XBeeCellularSocketCreate initState 2 (api_frame_bytes 0x8B [0, 1, 0])).routed = [] ∧
    (XBeeCellularSocketConnect initState 5 [10, 0, 0, 1] 80 []).routed = [] ∧
    (XBeeCellularSocketBind initState 5 0x1234 true []).routed = [] ∧
    (XBeeCellularSocketClose initState 5 true []).routed = [] :=
  ⟨c9_routing_only_in_correlator.1 initState .AT_AI [] [((0x8A : Nat), [0, 6])] 3
      [65, 73, 0, 0] [] (by decide) (by decide) (by decide) (by decide) (by decide),
    c9_routing_only_in_correlator.2.1 initState 2 (api_frame_bytes 0x8B [0, 1, 0]),
    c9_routing_only_in_correlator.2.2.1 initState 5 [10, 0, 0, 1] 80 [],
    c9_routing_only_in_correlator.2.2.2.1 initState 5 0x1234 true [],
    c9_routing_only_in_correlator.2.2.2.2 initState 5 true []⟩

/-- The outbound operations of claim C3: AT command sends, stateless IPv4
sends and the cellular socket operations.  Each runs the corresponding
embedded function with representative arguments (empty receive streams:
the frame is sent before any wait) and keeps the device state. -/
inductive CellOp where
  | opAtCmd
  | opIpv4Send
  | opSockCreate
  | opSockConnect
  | opSockBind
  | opSockSend
  | opSockSendTo
  | opSockClose
deriving DecidableEq

def runOp (st : XBeeState) : CellOp → XBeeState
  | .opAtCmd =>
    match api_send_at_command st .AT_VR [] 0 with
    | some r => r.2
    | none => st
  | .opIpv4Send => (XBeeCellularSendPacket st ⟨1, 0, [0, 0, 0, 0], [], 0⟩).2
  | .opSockCreate => (XBeeCellularSocketCreate st 1 []).st
  | .opSockConnect => (XBeeCellularSocketConnect st 0 [0, 0, 0, 0] 0 []).st
  | .opSockBind => (XBeeCellularSocketBind st 0 0 true []).st
  | .opSockSend => (XBeeCellularSocketSend st 0 [0] 1).2
  | .opSockSendTo => (XBeeCellularSocketSendTo st 0 [0, 0, 0, 0] 0 [0] 1).2
  | .opSockClose => (XBeeCellularSocketClose st 0 true []).st

def runOps (st : XBeeState) : List CellOp → XBeeState
  | [] => st
  | op :: ops => runOps (runOp st op) ops

/-- The frame IDs carried inside the sent frames, in order: every frame
built by these operations places the frame ID in its first payload byte. -/
def sentFrameIds (st : XBeeState) : List Nat :=
  st.sent.map fun g => g.2.headD 0

theorem nextFrameId_bounds (c : Nat) : 1 ≤ nextFrameId c ∧ nextFrameId c ≤ 255 := by
  unfold nextFrameId
  split <;> omega

theorem nextFrameId_eq (c : Nat) (h1 : 1 ≤ c) (h2 : c ≤ 255) :
    nextFrameId c = c % 255 + 1 := by
  unfold nextFrameId
  split <;> omega

/-- Every operation sends exactly one frame, carrying the counter value at
entry as its frame ID, and leaves the counter in [1, 255]. -/
theorem runOp_effect (st : XBeeState) (op : CellOp) :
    (∃ t tl, (runOp st op).sent = st.sent ++ [(t, st.frameIdCntr :: tl)]) ∧
      1 ≤ (runOp st op).frameIdCntr ∧ (runOp st op).frameIdCntr ≤ 255 := by
  cases op
  · exact ⟨⟨XBEE_API_TYPE_AT_COMMAND, [86, 82], rfl⟩, nextFrameId_bounds st.frameIdCntr⟩
  · exact ⟨⟨XBEE_API_TYPE_CELLULAR_TX_IPV4, [1, 0, 0, 0, 0, 0, 0], rfl⟩,
      nextFrameId_bounds st.frameIdCntr⟩
  · exact ⟨⟨XBEE_API_TYPE_CELLULAR_SOCKET_CREATE, [1], rfl⟩,
      nextFrameId_bounds ((st.frameIdCntr + 1) % 256)⟩
  · exact ⟨⟨XBEE_API_TYPE_CELLULAR_SOCKET_CONNECT, [0, 0, 0, 0, 0, 0, 0, 0], rfl⟩,
      nextFrameId_bounds ((st.frameIdCntr + 1) % 256)⟩
  · exact ⟨⟨XBEE_API_TYPE_CELLULAR_SOCKET_BIND, [0, 0, 0], rfl⟩,
      nextFrameId_bounds ((st.frameIdCntr + 1) % 256)⟩
  · exact ⟨⟨XBEE_API_TYPE_CELLULAR_SOCKET_SEND, [0, 0, 0], rfl⟩,
      nextFrameId_bounds ((st.frameIdCntr + 1) % 256)⟩
  · exact ⟨⟨XBEE_API_TYPE_CELLULAR_SOCKET_SEND_TO, [0, 0, 0, 0, 0, 0, 0, 0, 0], rfl⟩,
      nextFrameId_bounds ((st.frameIdCntr + 1) % 256)⟩
  · exact ⟨⟨XBEE_API_TYPE_CELLULAR_SOCKET_CLOSE, [0], rfl⟩,
      nextFrameId_bounds ((st.frameIdCntr + 1) % 256)⟩

/-- AT commands and IPv4 sends advance the counter by a single
nextFrameId step. -/
theorem runOp_at_ipv4 (st : XBeeState) (op : CellOp)
    (h : op = .opAtCmd ∨ op = .opIpv4Send) :
    (∃ t tl, (runOp st op).sent = st.sent ++ [(t, st.frameIdCntr :: tl)]) ∧
      (runOp st op).frameIdCntr = nextFrameId st.frameIdCntr := by
  rcases h with h | h <;> subst h
  · exact ⟨⟨XBEE_API_TYPE_AT_COMMAND, [86, 82], rfl⟩, rfl⟩
  · exact ⟨⟨XBEE_API_TYPE_CELLULAR_TX_IPV4, [1, 0, 0, 0, 0, 0, 0], rfl⟩, rfl⟩

theorem runOps_ids_bounded (ops : List CellOp) :
    ∀ st : XBeeState, 1 ≤ st.frameIdCntr → st.frameIdCntr ≤ 255 →
      (∀ id ∈ sentFrameIds st, 1 ≤ id ∧ id ≤ 255) →
      ∀ id ∈ sentFrameIds (runOps st ops), 1 ≤ id ∧ id ≤ 255 := by
  induction ops with
  | nil => intro st _ _ hsent; exact hsent
  | cons op ops ih =>
    intro st h1 h2 hsent
    obtain ⟨⟨t, tl, hsent1⟩, hb1, hb2⟩ := runOp_effect st op
    refine ih (runOp st op) hb1 hb2 ?_
    intro id hid
    simp only [sentFrameIds, hsent1, List.map_append] at hid
    rcases List.mem_append.mp hid with h | h
    · exact hsent id h
    · simp at h
      omega

theorem runOps_at_ipv4_ids (ops : List CellOp)
    (hops : ∀ op ∈ ops, op = .opAtCmd ∨ op = .opIpv4Send) :
    ∀ st : XBeeState, 1 ≤ st.frameIdCntr → st.frameIdCntr ≤ 255 →
      sentFrameIds (runOps st ops) = sentFrameIds st ++
        (List.range ops.length).map fun i => (st.frameIdCntr - 1 + i) % 255 + 1 := by
  induction ops with
  | nil => intro st _ _; simp [runOps]
  | cons op ops ih =>
    intro st h1 h2
    obtain ⟨⟨t, tl, hsent1⟩, hcntr⟩ := runOp_at_ipv4 st op (hops op (by simp))
    have hnext := nextFrameId_eq st.frameIdCntr h1 h2
    have hrec := ih (fun x hx => hops x (by simp [hx])) (runOp st op)
      (by rw [hcntr]; exact (nextFrameId_bounds _).1)
      (by rw [hcntr]; exact (nextFrameId_bounds _).2)
    show sentFrameIds (runOps (runOp st op) ops) = _
    rw [hrec, hcntr, hnext]
    have hids1 : sentFrameIds (runOp st op) = sentFrameIds st ++ [st.frameIdCntr] := by
      simp [sentFrameIds, hsent1]
    rw [hids1, List.append_assoc]
    congr 1
    have hhead : st.frameIdCntr = (st.frameIdCntr - 1 + 0) % 255 + 1 := by omega
    rw [List.length_cons, List.range_succ_eq_map, List.map_cons, List.map_map]
    simp only [List.singleton_append]
    rw [← hhead]
    congr 1
    refine List.map_congr_left ?_
    intro i _
    simp only [Function.comp]
    congr 1
    omega

/-- C3 counterexample: on a freshly initialized device, a socket create
followed by an AT command emits frame IDs 1 then 3 — the socket operation
advances the counter twice (its own post-increment plus api_send_frame's
increment) — while the claimed consecutive sequence for two sends is
[1, 2]. -/
theorem c3_socket_ops_skip_ids :
    sentFrameIds (runOps initState [.opSockCreate, .opAtCmd]) = [1, 3] ∧
      ((List.range 2).map fun i => i % 255 + 1) = [1, 2] ∧
      sentFrameIds (runOps initState [.opSockCreate, .opAtCmd]) ≠
        ((List.range 2).map fun i => i % 255 + 1) := by
  refine ⟨by decide, by decide, by decide⟩

/-- C3 amended: on a freshly initialized device a frame ID of 0 is never
emitted (every emitted ID lies in [1, 255]) by any mix of AT command,
IPv4-send and socket operations; and for sequences consisting only of AT
commands and stateless IPv4 sends the emitted IDs are the consecutive
sequence 1, 2, ..., 255, 1, 2, ... skipping 0 on wrap.  Socket operations
advance the counter twice per send, so mixes containing them can skip
values (see the counterexample) while still never emitting 0. -/
theorem c3_frame_id_monotonicity_amended :
    (∀ ops : List CellOp, ∀ id ∈ sentFrameIds (runOps initState ops),
      1 ≤ id ∧ id ≤ 255) ∧
    (∀ ops : List CellOp, (∀ op ∈ ops, op = .opAtCmd ∨ op = .opIpv4Send) →
      sentFrameIds (runOps initState ops) =
        (List.range ops.length).map fun i => i % 255 + 1) := by
  constructor
  · intro ops
    exact runOps_ids_bounded ops initState (by decide) (by decide) (by simp [sentFrameIds, initState])
  · intro ops hops
    have h := runOps_at_ipv4_ids ops hops initState (by decide) (by decide)
    simpa [sentFrameIds, initState] using h

/-- Witness for C3 amended at a run of 3 AT commands and an IPv4 send:
the emitted IDs are [1, 2, 3, 4], all in [1, 255]. -/
theorem c3_frame_id_monotonicity_amended_witness :
    (∀ id ∈ sentFrameIds (runOps initState [.opAtCmd, .opSockCreate]), 1 ≤ id ∧ id ≤ 255) ∧
      (∀ op ∈ ([.opAtCmd, .opAtCmd, .opAtCmd, .opIpv4Send] : List CellOp),
        op = CellOp.opAtCmd ∨ op = CellOp.opIpv4Send) ∧
      sentFrameIds (runOps initState [.opAtCmd, .opAtCmd, .opAtCmd, .opIpv4Send]) =
        (List.range 4).map fun i => i % 255 + 1 :=
  ⟨c3_frame_id_monotonicity_amended.1 [.opAtCmd, .opSockCreate], by decide,
    c3_frame_id_monotonicity_amended.2 [.opAtCmd, .opAtCmd, .opAtCmd, .opIpv4Send] (by decide)⟩
